import Mathlib

/-!
Shallow embedding of the Real-Time Data Breach Risk Detector backend
(src/backend): the detectors, the risk scorer, the alert manager and the
simulated endpoint collector, together with theorems settling the spec
claims about them.

Python dict records are embedded as structures whose fields are the fields
the code reads; optional fields (`dict.get` that may return None) are
`Option`. Python dicts used as maps (issue tallies, summaries) are embedded
as insertion-ordered association lists, matching CPython dict iteration
order.
-/

namespace BreachDetector

/-! ## Data model (spec section 3) -/

/-- An authentication log record: {user, action, ip, timestamp}. -/
structure AuthLog where
  user : String
  action : String
  ip : String
  timestamp : Option String
deriving DecidableEq

/-- An API access log record: {endpoint, auth_token, ip, timestamp}. -/
structure ApiLog where
  endpoint : String
  auth_token : Option String
  ip : String
  timestamp : Option String
deriving DecidableEq

/-- An endpoint scan result as produced by APICollector. -/
structure ScanResult where
  endpoint : String
  requires_auth : Bool
  auth_enforced : Bool
  public_access : Bool
  risk_level : String
deriving DecidableEq

/-- A detected issue. The detectors build dicts with a common core
(type, severity, description) plus type-specific fields; the embedding
carries the type-specific fields as options, `none` meaning absent. -/
structure Issue where
  type_ : String
  severity : Option String
  description : String
  user : Option String
  endpoint : Option String
  ip : Option String
  ips : Option (List String)
  failed_attempts : Option Nat
  ip_count : Option Nat
  hour : Option Nat
  timestamp : Option String
  risk_level : Option String
  public_access : Option Bool
deriving DecidableEq

/-- An issue with only the common core set; detector code fills in the rest. -/
def baseIssue (t sev desc : String) : Issue :=
  ⟨t, some sev, desc, none, none, none, none, none, none, none, none, none, none⟩

/-! ## String helpers

`strHasSub s pat` models the Python substring test `pat in s`. -/

def strHasSubAux (pat : List Char) : List Char → Bool
  | [] => pat.isEmpty
  | c :: cs => pat.isPrefixOf (c :: cs) || strHasSubAux pat cs

def strHasSub (s pat : String) : Bool :=
  strHasSubAux pat.data s.data

/-- Models Python `str.lower()` for the ASCII range (all usernames the code
compares are ASCII); written as an explicit character map so that it
evaluates inside the kernel. -/
def pyCharLower (c : Char) : Char :=
  if 65 ≤ c.toNat && c.toNat ≤ 90 then Char.ofNat (c.toNat + 32) else c

def strLower (s : String) : String :=
  ⟨s.data.map pyCharLower⟩

/-- Models `s.replace("Z", "+00:00")`: every occurrence of the character Z
is replaced (the pattern is a single character, so occurrences cannot
overlap). -/
def replaceZ (s : String) : String :=
  ⟨s.data.foldr
    (fun c acc =>
      if c == 'Z' then '+' :: '0' :: '0' :: ':' :: '0' :: '0' :: acc else c :: acc)
    []⟩

/-! ## Timestamp parsing

Models Python `datetime.fromisoformat` (the CPython 3.10 grammar):
`YYYY-MM-DD`, optionally followed by a single separator character and a
time `HH[:MM[:SS[.fff or .ffffff]]]` with an optional UTC offset
`[+-]HH:MM[:SS[.ffffff]]`. Exotic leniencies of Python `int()` (signs,
underscores, whitespace) and short trailing slices are not modelled:
number fields must be digit strings of full width. -/

structure PyDateTime where
  year : Nat
  month : Nat
  day : Nat
  hour : Nat
  minute : Nat
  second : Nat
  microsecond : Nat
  tzOffsetSeconds : Option Int
deriving DecidableEq

def digitVal (c : Char) : Option Nat :=
  if c.isDigit then some (c.toNat - 48) else none

def parseFixedNatGo : Nat → Nat → List Char → Option (Nat × List Char)
  | 0, acc, cs => some (acc, cs)
  | _ + 1, _, [] => none
  | k + 1, acc, c :: cs =>
    match digitVal c with
    | some d => parseFixedNatGo k (acc * 10 + d) cs
    | none => none

/-- Consume exactly `n` digit characters, returning their value. -/
def parseFixedNat (n : Nat) (cs : List Char) : Option (Nat × List Char) :=
  parseFixedNatGo n 0 cs

def expectChar (c : Char) : List Char → Option (List Char)
  | [] => none
  | x :: xs => if x == c then some xs else none

def findChar (c : Char) : List Char → Option Nat
  | [] => none
  | x :: xs => if x == c then some 0 else (findChar c xs).map (· + 1)

def isLeapYear (y : Nat) : Bool :=
  y % 4 == 0 && (y % 100 != 0 || y % 400 == 0)

def daysInMonth (y m : Nat) : Nat :=
  if m == 2 then (if isLeapYear y then 29 else 28)
  else if m == 4 || m == 6 || m == 9 || m == 11 then 30
  else 31

/-- Models CPython `_parse_hh_mm_ss_ff`: `HH[:MM[:SS[.fff or .ffffff]]]`,
consuming the whole string. Returns (hour, minute, second, microsecond). -/
def parseHMSF (cs : List Char) : Option (Nat × Nat × Nat × Nat) :=
  match parseFixedNat 2 cs with
  | none => none
  | some (hh, rest) =>
    match rest with
    | [] => some (hh, 0, 0, 0)
    | c :: rest2 =>
      if c != ':' then none
      else
        match parseFixedNat 2 rest2 with
        | none => none
        | some (mm, rest3) =>
          match rest3 with
          | [] => some (hh, mm, 0, 0)
          | c2 :: rest4 =>
            if c2 != ':' then none
            else
              match parseFixedNat 2 rest4 with
              | none => none
              | some (ss, rest5) =>
                match rest5 with
                | [] => some (hh, mm, ss, 0)
                | c3 :: rest6 =>
                  if c3 != '.' then none
                  else if rest6.length == 3 then
                    match parseFixedNat 3 rest6 with
                    | some (f, _) => some (hh, mm, ss, f * 1000)
                    | none => none
                  else if rest6.length == 6 then
                    match parseFixedNat 6 rest6 with
                    | some (f, _) => some (hh, mm, ss, f)
                    | none => none
                  else none

/-- Models CPython `_parse_isoformat_time`: splits an optional UTC offset at
the first - (preferring - over +, as the CPython search does) and parses
both parts with `parseHMSF`. The offset is kept in whole seconds (the
sub-second part of an offset does not affect any claim); its magnitude must
be under 24 hours. -/
def parseIsoTime (cs : List Char) : Option (Nat × Nat × Nat × Nat × Option Int) :=
  if cs.length < 2 then none
  else
    let tzSplit : Option (Nat × Int) :=
      match findChar '-' cs with
      | some i => some (i, -1)
      | none =>
        match findChar '+' cs with
        | some i => some (i, 1)
        | none => none
    match tzSplit with
    | none =>
      match parseHMSF cs with
      | some (hh, mm, ss, us) => some (hh, mm, ss, us, none)
      | none => none
    | some (i, sign) =>
      let timestr := cs.take i
      let tzstr := cs.drop (i + 1)
      match parseHMSF timestr with
      | none => none
      | some (hh, mm, ss, us) =>
        if tzstr.length != 5 && tzstr.length != 8 && tzstr.length != 15 then none
        else
          match parseHMSF tzstr with
          | none => none
          | some (th, tm, ts, tus) =>
            if (th * 3600 + tm * 60 + ts) * 1000000 + tus < 24 * 3600 * 1000000 then
              some (hh, mm, ss, us, some (sign * ((th * 3600 + tm * 60 + ts : Nat) : Int)))
            else none

/-- Field validation done by the datetime constructor. -/
def mkValidDateTime (y m d hh mi ss us : Nat) (off : Option Int) : Option PyDateTime :=
  if 1 ≤ y && y ≤ 9999 && 1 ≤ m && m ≤ 12 && 1 ≤ d && d ≤ daysInMonth y m
      && hh ≤ 23 && mi ≤ 59 && ss ≤ 59 && us ≤ 999999 then
    some ⟨y, m, d, hh, mi, ss, us, off⟩
  else none

/-- Models Python `datetime.fromisoformat`: parse `YYYY-MM-DD`; a string of
exactly that length is midnight; otherwise one separator character (any
character, unvalidated, as in CPython) is skipped and the rest, if
nonempty, is parsed as a time. -/
def fromisoformat (s : String) : Option PyDateTime :=
  match parseFixedNat 4 s.data with
  | none => none
  | some (y, r1) =>
    match expectChar '-' r1 with
    | none => none
    | some r2 =>
      match parseFixedNat 2 r2 with
      | none => none
      | some (m, r3) =>
        match expectChar '-' r3 with
        | none => none
        | some r4 =>
          match parseFixedNat 2 r4 with
          | none => none
          | some (d, rest) =>
            match rest with
            | [] => mkValidDateTime y m d 0 0 0 0 none
            | _sep :: timecs =>
              match timecs with
              | [] => mkValidDateTime y m d 0 0 0 0 none
              | _ :: _ =>
                match parseIsoTime timecs with
                | none => none
                | some (hh, mi, ss, us, off) => mkValidDateTime y m d hh mi ss us off

/-! ## Configuration (src/backend/config/settings.py) -/

def RISK_THRESHOLDS : List (String × Int) :=
  [("LOW", 0), ("MEDIUM", 30), ("HIGH", 60), ("CRITICAL", 90)]

def RISK_WEIGHTS : List (String × Nat) :=
  [("public_api_exposed", 40), ("failed_login_attempts", 20),
   ("suspicious_access_time", 30), ("missing_authentication", 35),
   ("weak_password", 25), ("multiple_ips", 15)]

def DETECTION_CONFIG_max_failed_logins : Nat := 3

def DETECTION_CONFIG_suspicious_hours : List Nat := [0, 1, 2, 3, 4, 5]

/-- Association-list lookup, modelling a Python dict read. -/
def assocFind {α : Type} (m : List (String × α)) (k : String) : Option α :=
  (m.find? (fun kv => kv.1 == k)).map (fun kv => kv.2)

/-- Models `dict.get(k, d)`. -/
def assocGetD {α : Type} (m : List (String × α)) (k : String) (d : α) : α :=
  (assocFind m k).getD d

/-! ## AuthDetector (src/backend/detectors/auth_detector.py) -/

namespace AuthDetector

/-- One step of `failed_attempts[user].append(log)` on an insertion-ordered
map of lists (defaultdict(list)). -/
def addToGroup (gs : List (String × List AuthLog)) (user : String) (log : AuthLog) :
    List (String × List AuthLog) :=
  match gs with
  | [] => [(user, [log])]
  | (u, ls) :: rest =>
    if u == user then (u, ls ++ [log]) :: rest
    else (u, ls) :: addToGroup rest user log

/-- The failed-login grouping loop of detect_brute_force: keys in first-seen
order, values in record order. -/
def failedAttemptsByUser (auth_logs : List AuthLog) : List (String × List AuthLog) :=
  auth_logs.foldl
    (fun gs log => if log.action == "login_failed" then addToGroup gs log.user log else gs)
    []

/-- Models `list(set(ips))`. CPython set iteration order is unspecified; the
embedding fixes first-occurrence order. -/
def dedupFirst (l : List String) : List String :=
  l.foldl (fun acc x => if acc.contains x then acc else acc ++ [x]) []

def mkBruteForceIssue (user : String) (attempts : List AuthLog) : Issue :=
  { baseIssue "brute_force_detected" "CRITICAL"
      ("User \x27" ++ user ++ "\x27 had " ++ toString attempts.length ++
        " failed login attempts") with
    user := some user,
    failed_attempts := some attempts.length,
    ips := some (dedupFirst (attempts.map (fun l => l.ip))) }

/-- The threshold test of the detect_brute_force loop body, on one
(user, attempts) group. -/
def bruteForceCheck (g : String × List AuthLog) : Option Issue :=
  if g.2.length > DETECTION_CONFIG_max_failed_logins then
    some (mkBruteForceIssue g.1 g.2)
  else none

def detect_brute_force (auth_logs : List AuthLog) : List Issue :=
  (failedAttemptsByUser auth_logs).filterMap bruteForceCheck

def mkSuspiciousTimeIssue (log : AuthLog) (ts : String) (hour : Nat) : Issue :=
  { baseIssue "suspicious_access_time" "WARNING"
      ("User \x27" ++ log.user ++ "\x27 logged in at suspicious hour " ++
        toString hour ++ ":00") with
    user := some log.user,
    timestamp := some ts,
    hour := some hour,
    ip := some log.ip }

/-- `timestamp.replace` on an absent timestamp raises AttributeError and
`fromisoformat` on a malformed one raises ValueError; both are swallowed by
the bare `except`, so the record is skipped and the loop continues. -/
def detect_suspicious_access_time (auth_logs : List AuthLog) : List Issue :=
  auth_logs.filterMap
    (fun log =>
      if log.action == "login_success" then
        match log.timestamp with
        | none => none
        | some ts =>
          match fromisoformat (replaceZ ts) with
          | none => none
          | some dt =>
            if DETECTION_CONFIG_suspicious_hours.contains dt.hour then
              some (mkSuspiciousTimeIssue log ts dt.hour)
            else none
      else none)

/-- One step of `user_ips[user].add(ip)` (defaultdict(set)); sets are
embedded as first-occurrence-ordered duplicate-free lists. -/
def addIpToGroup (gs : List (String × List String)) (user ip : String) :
    List (String × List String) :=
  match gs with
  | [] => [(user, [ip])]
  | (u, ips) :: rest =>
    if u == user then (u, if ips.contains ip then ips else ips ++ [ip]) :: rest
    else (u, ips) :: addIpToGroup rest user ip

def userIpsOfSuccess (auth_logs : List AuthLog) : List (String × List String) :=
  auth_logs.foldl
    (fun gs log => if log.action == "login_success" then addIpToGroup gs log.user log.ip else gs)
    []

def mkMultipleIpIssue (user : String) (ips : List String) : Issue :=
  { baseIssue "multiple_ip_access" "WARNING"
      ("User \x27" ++ user ++ "\x27 logged in from " ++ toString ips.length ++
        " different IPs") with
    user := some user,
    ip_count := some ips.length,
    ips := some ips }

def detect_multiple_ip_access (auth_logs : List AuthLog) : List Issue :=
  (userIpsOfSuccess auth_logs).filterMap
    (fun g => if g.2.length > 1 then some (mkMultipleIpIssue g.1 g.2) else none)

/-- Result shape of each detector's analyze. -/
structure AnalyzeResult where
  detector : String
  total_issues : Nat
  issues : List Issue
deriving DecidableEq

def analyze (auth_logs : List AuthLog) : AnalyzeResult :=
  let all_issues :=
    detect_brute_force auth_logs ++ detect_suspicious_access_time auth_logs ++
      detect_multiple_ip_access auth_logs
  ⟨"authentication", all_issues.length, all_issues⟩

end AuthDetector

/-! ## APIDetector (src/backend/detectors/api_detector.py) -/

namespace APIDetector

def protected_endpoints : List String :=
  ["/api/admin", "/api/database", "/api/users", "/api/data"]

/-- Python truthiness of an optional string: None and the empty string are
falsy. -/
def truthyToken : Option String → Bool
  | none => false
  | some t => t != ""

def mkMissingAuthIssue (log : ApiLog) : Issue :=
  { baseIssue "missing_authentication" "CRITICAL"
      ("Protected endpoint \x27" ++ log.endpoint ++ "\x27 accessed without authentication") with
    endpoint := some log.endpoint,
    ip := some log.ip,
    timestamp := log.timestamp }

def detect_missing_auth (api_logs : List ApiLog) : List Issue :=
  api_logs.filterMap
    (fun log =>
      let is_protected := protected_endpoints.any (fun p => strHasSub log.endpoint p)
      if is_protected && !truthyToken log.auth_token then
        some (mkMissingAuthIssue log)
      else none)

def mkExposedEndpointIssue (scan : ScanResult) (severity : String) : Issue :=
  { baseIssue "exposed_endpoint" severity
      ("Sensitive endpoint \x27" ++ scan.endpoint ++ "\x27 is publicly accessible") with
    endpoint := some scan.endpoint,
    public_access := some scan.public_access }

def detect_exposed_admin_endpoints (endpoint_scans : List ScanResult) : List Issue :=
  endpoint_scans.filterMap
    (fun scan =>
      if scan.requires_auth && !scan.auth_enforced then
        some (mkExposedEndpointIssue scan
          (if strHasSub scan.endpoint "admin" || strHasSub scan.endpoint "database" then
            "CRITICAL"
          else "WARNING"))
      else none)

def analyze (api_logs : List ApiLog) (endpoint_scans : List ScanResult) :
    AuthDetector.AnalyzeResult :=
  let all_issues := detect_missing_auth api_logs ++ detect_exposed_admin_endpoints endpoint_scans
  ⟨"api_security", all_issues.length, all_issues⟩

end APIDetector

/-! ## MisconfigDetector (src/backend/detectors/misconfig_detector.py) -/

namespace MisconfigDetector

def weak_usernames : List String :=
  ["admin", "root", "administrator", "test", "guest"]

def mkDefaultCredIssue (log : AuthLog) : Issue :=
  { baseIssue "default_credentials" "WARNING"
      ("Default/common username \x27" ++ log.user ++ "\x27 is in use") with
    user := some log.user }

/-- The detection loop of detect_default_credentials, with the
`detected_users` set threaded explicitly (membership-only use, so a list
suffices). -/
def detectDefaultCredsGo (detected : List String) : List AuthLog → List Issue
  | [] => []
  | log :: rest =>
    let user := strLower log.user
    if weak_usernames.contains user && !detected.contains user then
      mkDefaultCredIssue log :: detectDefaultCredsGo (user :: detected) rest
    else
      detectDefaultCredsGo detected rest

def detect_default_credentials (auth_logs : List AuthLog) : List Issue :=
  detectDefaultCredsGo [] auth_logs

def mkPublicEndpointIssue (scan : ScanResult) : Issue :=
  { baseIssue "public_endpoint" "INFO"
      ("Endpoint \x27" ++ scan.endpoint ++ "\x27 is publicly accessible") with
    endpoint := some scan.endpoint,
    risk_level := some scan.risk_level }

def detect_public_endpoints (endpoint_scans : List ScanResult) : List Issue :=
  endpoint_scans.filterMap
    (fun scan =>
      if scan.public_access && scan.risk_level != "LOW" then
        some (mkPublicEndpointIssue scan)
      else none)

def analyze (auth_logs : List AuthLog) (endpoint_scans : List ScanResult) :
    AuthDetector.AnalyzeResult :=
  let all_issues := detect_default_credentials auth_logs ++ detect_public_endpoints endpoint_scans
  ⟨"misconfiguration", all_issues.length, all_issues⟩

end MisconfigDetector

/-! ## RiskScorer (src/backend/risk_engine/risk_score.py) -/

namespace RiskScorer

/-- One step of `issue_counts[t] = issue_counts.get(t, 0) + 1` on an
insertion-ordered dict. -/
def bumpCount (counts : List (String × Nat)) (t : String) : List (String × Nat) :=
  match counts with
  | [] => [(t, 1)]
  | (k, v) :: rest => if k == t then (k, v + 1) :: rest else (k, v) :: bumpCount rest t

/-- The issue-counting loop of calculate_score. -/
def tallyTypes (all_issues : List Issue) : List (String × Nat) :=
  all_issues.foldl (fun counts issue => bumpCount counts issue.type_) []

/-- The weight_mapping dict built inside _get_weight. The RISK_WEIGHTS keys
it reads are all present in settings.py, so the 0 defaults are dead. -/
def weight_mapping : List (String × Nat) :=
  [("exposed_endpoint", assocGetD RISK_WEIGHTS "public_api_exposed" 0),
   ("missing_authentication", assocGetD RISK_WEIGHTS "missing_authentication" 0),
   ("brute_force_detected", assocGetD RISK_WEIGHTS "failed_login_attempts" 0),
   ("suspicious_access_time", assocGetD RISK_WEIGHTS "suspicious_access_time" 0),
   ("default_credentials", assocGetD RISK_WEIGHTS "weak_password" 0),
   ("multiple_ip_access", assocGetD RISK_WEIGHTS "multiple_ips" 0),
   ("public_endpoint", 10)]

def _get_weight (issue_type : String) : Nat :=
  assocGetD weight_mapping issue_type 5

def _get_risk_level (score : Int) : String :=
  if score ≥ assocGetD RISK_THRESHOLDS "CRITICAL" 0 then "CRITICAL"
  else if score ≥ assocGetD RISK_THRESHOLDS "HIGH" 0 then "HIGH"
  else if score ≥ assocGetD RISK_THRESHOLDS "MEDIUM" 0 then "MEDIUM"
  else "LOW"

structure BreakdownEntry where
  count : Nat
  weight : Nat
  contribution : Nat
deriving DecidableEq

structure RiskScoreResult where
  score : Nat
  risk_level : String
  breakdown : List (String × BreakdownEntry)
  total_issues : Nat
  issue_counts : List (String × Nat)
deriving DecidableEq

/-- calculate_score, with the weight function abstracted so that the
independence of issue_counts from the weights can be stated; the scoring
loop over the tally accumulates weight × count per present type. -/
def calcScoreWith (w : String → Nat) (all_issues : List Issue) : RiskScoreResult :=
  let issue_counts := tallyTypes all_issues
  let score := (issue_counts.map (fun kc => w kc.1 * kc.2)).sum
  let breakdown := issue_counts.map (fun kc => (kc.1, (⟨kc.2, w kc.1, w kc.1 * kc.2⟩ : BreakdownEntry)))
  { score := score,
    risk_level := _get_risk_level (score : Int),
    breakdown := breakdown,
    total_issues := all_issues.length,
    issue_counts := issue_counts }

def calculate_score (all_issues : List Issue) : RiskScoreResult :=
  calcScoreWith _get_weight all_issues

/-- Key-membership test, modelling `t in issue_counts`. -/
def hasType (issue_counts : List (String × Nat)) (t : String) : Bool :=
  (assocFind issue_counts t).isSome

def noCriticalIssuesMsg : String :=
  "✓ No critical issues detected - maintain current security posture"

/-- get_recommendations reads only risk_data[issue_counts]; the embedding
takes that dict directly. Each fired branch appends its two fixed strings
in source order. -/
def get_recommendations (issue_counts : List (String × Nat)) : List String :=
  let recommendations :=
    (if hasType issue_counts "brute_force_detected" then
      ["🔒 Implement account lockout after failed login attempts",
       "🔒 Enable multi-factor authentication (MFA)"]
    else []) ++
    (if hasType issue_counts "exposed_endpoint" || hasType issue_counts "missing_authentication" then
      ["🔒 Add authentication to all sensitive API endpoints",
       "🔒 Implement API key validation"]
    else []) ++
    (if hasType issue_counts "suspicious_access_time" then
      ["🔒 Set up alerts for off-hours access",
       "🔒 Review access logs regularly"]
    else []) ++
    (if hasType issue_counts "default_credentials" then
      ["🔒 Change all default usernames and passwords",
       "🔒 Enforce strong password policies"]
    else []) ++
    (if hasType issue_counts "multiple_ip_access" then
      ["🔒 Implement IP whitelisting for admin accounts",
       "🔒 Monitor for unusual login patterns"]
    else [])
  if recommendations.isEmpty then [noCriticalIssuesMsg] else recommendations

end RiskScorer

/-! ## AlertManager (src/backend/alerts/alert_manager.py) -/

structure Alert where
  id : Nat
  timestamp : String
  severity : Option String
  type_ : String
  description : String
  details : Issue
deriving DecidableEq

namespace AlertManager

/-- The only state of an AlertManager instance is its alert_history. -/
structure State where
  alert_history : List Alert
deriving DecidableEq

/-- A freshly constructed AlertManager. -/
def init : State := ⟨[]⟩

/-- create_alert: the id is len(alert_history) + 1 at call time. The wall
clock is abstracted as the `now` argument. -/
def create_alert (s : State) (now : String) (issue : Issue) : Alert :=
  { id := s.alert_history.length + 1,
    timestamp := now,
    severity := some (issue.severity.getD "INFO"),
    type_ := issue.type_,
    description := issue.description,
    details := issue }

/-- process_issues: the loop calls create_alert with alert_history
unchanged (self.alert_history.extend runs only after the loop), so every
alert of one batch is created against the same history length. -/
def process_issues (s : State) (now : String) (all_issues : List Issue) :
    List Alert × State :=
  let alerts := all_issues.map (create_alert s now)
  (alerts, ⟨s.alert_history ++ alerts⟩)

structure AlertSummary where
  CRITICAL : Nat
  WARNING : Nat
  INFO : Nat
  total : Nat
deriving DecidableEq

/-- One step of `if severity in summary: summary[severity] += 1`. The
summary dict has the keys CRITICAL, WARNING, INFO and total, so a severity
string equal to "total" hits the total bucket; any other unknown severity
changes nothing. -/
def bumpSummary (acc : AlertSummary) (severity : String) : AlertSummary :=
  if severity == "CRITICAL" then { acc with CRITICAL := acc.CRITICAL + 1 }
  else if severity == "WARNING" then { acc with WARNING := acc.WARNING + 1 }
  else if severity == "INFO" then { acc with INFO := acc.INFO + 1 }
  else if severity == "total" then { acc with total := acc.total + 1 }
  else acc

def get_alert_summary (alerts : List Alert) : AlertSummary :=
  alerts.foldl (fun acc alert => bumpSummary acc (alert.severity.getD "INFO"))
    ⟨0, 0, 0, alerts.length⟩

end AlertManager

/-! ## APICollector (src/backend/collectors/api_collector.py) -/

namespace APICollector

def endpoints_to_scan : List String :=
  ["/api/users", "/api/admin/settings", "/api/database/dump", "/api/health", "/api/data/export"]

def _simulate_endpoint_check (endpoint : String) : ScanResult :=
  if strHasSub endpoint "admin" || strHasSub endpoint "database" || strHasSub endpoint "dump" then
    ⟨endpoint, true, false, true, "HIGH"⟩
  else if strHasSub endpoint "health" then
    ⟨endpoint, false, false, true, "LOW"⟩
  else
    ⟨endpoint, true, true, false, "LOW"⟩

def scan_endpoints : List ScanResult :=
  endpoints_to_scan.map _simulate_endpoint_check

end APICollector

/-- The issue concatenation of run_scan (src/backend/routes/dashboard_routes.py):
auth issues, then api issues, then misconfig issues. -/
def combinedIssues (auth_logs : List AuthLog) (api_logs : List ApiLog)
    (endpoint_scans : List ScanResult) : List Issue :=
  (AuthDetector.analyze auth_logs).issues ++
    (APIDetector.analyze api_logs endpoint_scans).issues ++
    (MisconfigDetector.analyze auth_logs endpoint_scans).issues

/-! ## Concrete inputs used by the theorems -/

/-- A failed login for eve from 10.0.0.1 (end-to-end scenario record). -/
def eveFailedLog : AuthLog := ⟨"eve", "login_failed", "10.0.0.1", none⟩

/-- The single successful login for eve at hour 2 from 10.0.0.2. -/
def eveSuccessLog : AuthLog := ⟨"eve", "login_success", "10.0.0.2", some "2024-01-15T02:30:00Z"⟩

def e2eAuthLogs : List AuthLog :=
  [eveFailedLog, eveFailedLog, eveFailedLog, eveFailedLog, eveSuccessLog]

/-- One request to /api/admin/settings with no auth token. -/
def e2eApiLogs : List ApiLog :=
  [⟨"/api/admin/settings", none, "203.0.113.9", some "2024-01-15T02:31:00Z"⟩]

/-- The issues the three detectors produce on the end-to-end scenario, in
run_scan concatenation order, with the endpoint scans coming from
APICollector's simulated check of its five fixed endpoints. -/
def e2eIssues : List Issue :=
  combinedIssues e2eAuthLogs e2eApiLogs APICollector.scan_endpoints

def demoIssues3 : List Issue :=
  [baseIssue "missing_authentication" "CRITICAL" "d1",
   baseIssue "suspicious_access_time" "WARNING" "d2",
   baseIssue "public_endpoint" "INFO" "d3"]

/-- An alert whose severity is the string "total". -/
def totalSeverityAlert : Alert :=
  ⟨1, "2024-01-15T10:00:00", some "total", "public_endpoint", "d",
    baseIssue "public_endpoint" "total" "d"⟩

/-! ## Claim theorems -/

/-- C1: the claim says alerts created by one process_issues call on a fresh
AlertManager get consecutive ids 1, 2, 3, …; the code computes each id as
len(alert_history) + 1 but extends alert_history only after the loop, so
every alert of the batch gets id 1. This theorem evaluates the code at the
failing input (3 issues, fresh manager) and also states the general batch
behaviour. -/
theorem alertManager_c1_ids_are_all_one :
    ((AlertManager.process_issues AlertManager.init "2024-01-15T10:00:00" demoIssues3).1.map
        (fun a => a.id)) = [1, 1, 1] ∧
    (∀ (s : AlertManager.State) (now : String) (issues : List Issue),
      ((AlertManager.process_issues s now issues).1.map (fun a => a.id)) =
        List.replicate issues.length (s.alert_history.length + 1)) := by
  refine ⟨by decide, fun s now issues => ?_⟩
  induction issues with
  | nil => rfl
  | cons i rest ih =>
    simpa [AlertManager.process_issues, AlertManager.create_alert, List.replicate] using ih

/-- C2 (counterexample): on the spec's end-to-end scenario input the claim
fails: no multiple_ip_access issue is produced (the scenario has a single
successful login, hence a single IP), two public_endpoint issues are
produced (admin and database-dump are public with risk HIGH; health is
public but LOW and therefore excluded), and the score is 185, not 190. -/
theorem e2e_c2_counterexample :
    (e2eIssues.filter (fun i => i.type_ == "multiple_ip_access")).length = 0 ∧
    (e2eIssues.filter (fun i => i.type_ == "public_endpoint")).length = 2 ∧
    (RiskScorer.calculate_score e2eIssues).score = 185 := by
  decide

/-- C2 (amended): the scenario yields exactly 7 issues — one
brute_force_detected with failed_attempts 4, one suspicious_access_time at
hour 2, one missing_authentication, two CRITICAL exposed_endpoint issues
(admin and database-dump) and two INFO public_endpoint issues (admin and
database-dump, not health); no multiple_ip_access issue — and
calculate_score over them returns score 185 and risk_level CRITICAL. -/
theorem e2e_c2_amended :
    e2eIssues.length = 7 ∧
    (e2eIssues.map (fun i => (i.type_, i.severity))) =
      [("brute_force_detected", some "CRITICAL"),
       ("suspicious_access_time", some "WARNING"),
       ("missing_authentication", some "CRITICAL"),
       ("exposed_endpoint", some "CRITICAL"),
       ("exposed_endpoint", some "CRITICAL"),
       ("public_endpoint", some "INFO"),
       ("public_endpoint", some "INFO")] ∧
    ((e2eIssues.filter (fun i => i.type_ == "brute_force_detected")).map
        (fun i => i.failed_attempts)) = [some 4] ∧
    ((e2eIssues.filter (fun i => i.type_ == "suspicious_access_time")).map
        (fun i => i.hour)) = [some 2] ∧
    ((e2eIssues.filter (fun i => i.type_ == "exposed_endpoint")).map
        (fun i => i.endpoint)) = [some "/api/admin/settings", some "/api/database/dump"] ∧
    ((e2eIssues.filter (fun i => i.type_ == "public_endpoint")).map
        (fun i => i.endpoint)) = [some "/api/admin/settings", some "/api/database/dump"] ∧
    (e2eIssues.filter (fun i => i.type_ == "multiple_ip_access")) = [] ∧
    (RiskScorer.calculate_score e2eIssues).score = 185 ∧
    (RiskScorer.calculate_score e2eIssues).risk_level = "CRITICAL" := by
  decide

/-- C3 (counterexample): issue_counts containing only public_endpoint is
nonempty, yet get_recommendations returns the single "no critical issues"
message, because no recommendation branch covers public_endpoint;
the claimed "exactly when no issue types are present" is false. -/
theorem recommendations_c3_counterexample :
    RiskScorer.get_recommendations [("public_endpoint", 1)] = [RiskScorer.noCriticalIssuesMsg] ∧
    RiskScorer.hasType [("public_endpoint", 1)] "public_endpoint" = true ∧
    ([("public_endpoint", 1)] : List (String × Nat)) ≠ [] := by
  decide

/-- C10 (counterexample): a single alert whose severity is the string
"total" makes get_alert_summary report total = 2 for a one-element list,
because the update `if severity in summary` also matches the total key;
the claimed "total equals the length of the list" is false. -/
theorem alertSummary_c10_counterexample :
    (AlertManager.get_alert_summary [totalSeverityAlert]).total = 2 ∧
    ([totalSeverityAlert] : List Alert).length = 1 := by
  decide

/-- The order LOW < MEDIUM < HIGH < CRITICAL on risk levels. -/
def levelRank (l : String) : Nat :=
  if l == "LOW" then 0
  else if l == "MEDIUM" then 1
  else if l == "HIGH" then 2
  else if l == "CRITICAL" then 3
  else 0

/-- C5: _get_risk_level is monotone non-decreasing in the score, maps the
boundary scores 0, 29, 30, 59, 60, 89, 90 to LOW, LOW, MEDIUM, MEDIUM,
HIGH, HIGH, CRITICAL, and implements the highest-first threshold chain
score ≥ 90 → CRITICAL, else ≥ 60 → HIGH, else ≥ 30 → MEDIUM, else LOW. -/
theorem riskLevel_c5_monotone_and_boundaries :
    (∀ s t : Int, s ≤ t →
      levelRank (RiskScorer._get_risk_level s) ≤ levelRank (RiskScorer._get_risk_level t)) ∧
    RiskScorer._get_risk_level 0 = "LOW" ∧
    RiskScorer._get_risk_level 29 = "LOW" ∧
    RiskScorer._get_risk_level 30 = "MEDIUM" ∧
    RiskScorer._get_risk_level 59 = "MEDIUM" ∧
    RiskScorer._get_risk_level 60 = "HIGH" ∧
    RiskScorer._get_risk_level 89 = "HIGH" ∧
    RiskScorer._get_risk_level 90 = "CRITICAL" ∧
    (∀ s : Int, 90 ≤ s → RiskScorer._get_risk_level s = "CRITICAL") ∧
    (∀ s : Int, 60 ≤ s → s < 90 → RiskScorer._get_risk_level s = "HIGH") ∧
    (∀ s : Int, 30 ≤ s → s < 60 → RiskScorer._get_risk_level s = "MEDIUM") ∧
    (∀ s : Int, s < 30 → RiskScorer._get_risk_level s = "LOW") := by
  have hC : assocGetD RISK_THRESHOLDS "CRITICAL" 0 = 90 := rfl
  have hH : assocGetD RISK_THRESHOLDS "HIGH" 0 = 60 := rfl
  have hM : assocGetD RISK_THRESHOLDS "MEDIUM" 0 = 30 := rfl
  refine ⟨?_, by decide, by decide, by decide, by decide, by decide, by decide, by decide,
    ?_, ?_, ?_, ?_⟩
  · intro s t hst
    simp only [RiskScorer._get_risk_level, hC, hH, hM]
    split_ifs <;> first | decide | (exfalso; omega)
  · intro s hs
    simp only [RiskScorer._get_risk_level, hC, hH, hM]
    split_ifs <;> first | rfl | (exfalso; omega)
  · intro s hs1 hs2
    simp only [RiskScorer._get_risk_level, hC, hH, hM]
    split_ifs <;> first | rfl | (exfalso; omega)
  · intro s hs1 hs2
    simp only [RiskScorer._get_risk_level, hC, hH, hM]
    split_ifs <;> first | rfl | (exfalso; omega)
  · intro s hs
    simp only [RiskScorer._get_risk_level, hC, hH, hM]
    split_ifs <;> first | rfl | (exfalso; omega)

/-- Witness for C5 at concrete scores 0 ≤ 100. -/
theorem riskLevel_c5_witness :
    levelRank (RiskScorer._get_risk_level 0) ≤ levelRank (RiskScorer._get_risk_level 100) :=
  riskLevel_c5_monotone_and_boundaries.1 0 100 (by decide)

/-- Appending one issue of type t to the tally adds w t to the weighted sum. -/
theorem bumpCount_map_sum (w : String → Nat) (counts : List (String × Nat)) (t : String) :
    ((RiskScorer.bumpCount counts t).map (fun kc => w kc.1 * kc.2)).sum =
      (counts.map (fun kc => w kc.1 * kc.2)).sum + w t := by
  induction counts with
  | nil => simp [RiskScorer.bumpCount]
  | cons kv rest ih =>
    obtain ⟨k, v⟩ := kv
    by_cases h : k = t
    · subst h
      simp [RiskScorer.bumpCount, Nat.mul_add]
      ring
    · simp [RiskScorer.bumpCount, beq_iff_eq, h, ih]
      ring

/-- The weighted sum over the running tally equals the per-issue weighted sum. -/
theorem tally_fold_map_sum (w : String → Nat) (all_issues : List Issue)
    (counts : List (String × Nat)) :
    ((all_issues.foldl (fun c issue => RiskScorer.bumpCount c issue.type_) counts).map
        (fun kc => w kc.1 * kc.2)).sum =
      (counts.map (fun kc => w kc.1 * kc.2)).sum +
        (all_issues.map (fun i => w i.type_)).sum := by
  induction all_issues generalizing counts with
  | nil => simp
  | cons i rest ih =>
    simp only [List.foldl_cons, List.map_cons, List.sum_cons]
    rw [ih, bumpCount_map_sum]
    ring

/-- The seven issue types the weight table maps explicitly. -/
def mappedTypes : List String :=
  ["exposed_endpoint", "missing_authentication", "brute_force_detected",
   "suspicious_access_time", "default_credentials", "multiple_ip_access", "public_endpoint"]

/-- C4: calculate_score's score is the sum over present issue types of
count × weight — equivalently the sum of the weights of the individual
issues — with the fixed weight table (exposed_endpoint 40,
missing_authentication 35, brute_force_detected 20, suspicious_access_time
30, default_credentials 25, multiple_ip_access 15, public_endpoint 10) and
default weight 5 for any unmapped type; issue_counts is the per-type tally
of the input and is the same for every weight function. -/
theorem riskScore_c4 (all_issues : List Issue) (t : String) (ht : t ∉ mappedTypes) :
    RiskScorer._get_weight t = 5 ∧
    (RiskScorer.calculate_score all_issues).score =
      ((RiskScorer.tallyTypes all_issues).map
        (fun kc => RiskScorer._get_weight kc.1 * kc.2)).sum ∧
    (RiskScorer.calculate_score all_issues).score =
      (all_issues.map (fun i => RiskScorer._get_weight i.type_)).sum ∧
    (RiskScorer.calculate_score all_issues).issue_counts = RiskScorer.tallyTypes all_issues ∧
    (∀ w : String → Nat,
      (RiskScorer.calcScoreWith w all_issues).issue_counts = RiskScorer.tallyTypes all_issues) ∧
    RiskScorer._get_weight "exposed_endpoint" = 40 ∧
    RiskScorer._get_weight "missing_authentication" = 35 ∧
    RiskScorer._get_weight "brute_force_detected" = 20 ∧
    RiskScorer._get_weight "suspicious_access_time" = 30 ∧
    RiskScorer._get_weight "default_credentials" = 25 ∧
    RiskScorer._get_weight "multiple_ip_access" = 15 ∧
    RiskScorer._get_weight "public_endpoint" = 10 := by
  refine ⟨?_, rfl, ?_, rfl, fun w => rfl, rfl, rfl, rfl, rfl, rfl, rfl, rfl⟩
  · simp only [mappedTypes, List.mem_cons, List.not_mem_nil, or_false, not_or] at ht
    obtain ⟨h1, h2, h3, h4, h5, h6, h7⟩ := ht
    have g1 : ("exposed_endpoint" == t) = false := beq_eq_false_iff_ne.mpr (Ne.symm h1)
    have g2 : ("missing_authentication" == t) = false := beq_eq_false_iff_ne.mpr (Ne.symm h2)
    have g3 : ("brute_force_detected" == t) = false := beq_eq_false_iff_ne.mpr (Ne.symm h3)
    have g4 : ("suspicious_access_time" == t) = false := beq_eq_false_iff_ne.mpr (Ne.symm h4)
    have g5 : ("default_credentials" == t) = false := beq_eq_false_iff_ne.mpr (Ne.symm h5)
    have g6 : ("multiple_ip_access" == t) = false := beq_eq_false_iff_ne.mpr (Ne.symm h6)
    have g7 : ("public_endpoint" == t) = false := beq_eq_false_iff_ne.mpr (Ne.symm h7)
    simp [RiskScorer._get_weight, assocGetD, assocFind, RiskScorer.weight_mapping,
      List.find?, g1, g2, g3, g4, g5, g6, g7]
  · show (RiskScorer.calcScoreWith RiskScorer._get_weight all_issues).score = _
    simp only [RiskScorer.calcScoreWith, RiskScorer.tallyTypes]
    rw [tally_fold_map_sum]
    simp

/-- Witness for C4 with an unmapped type. -/
theorem riskScore_c4_witness : RiskScorer._get_weight "rate_limit_exceeded" = 5 :=
  (riskScore_c4 [] "rate_limit_exceeded" (by decide)).1

/-- C3 (amended): get_recommendations returns the single "no critical
issues" message exactly when none of the six issue types that have a
recommendation branch is present in issue_counts; a present type with no
branch (such as public_endpoint, or an unknown type) also yields the
message. Otherwise the result is the concatenation of the fixed two-string
blocks of the branches whose types are present. -/
theorem recommendations_c3_amended (issue_counts : List (String × Nat)) :
    RiskScorer.get_recommendations issue_counts = [RiskScorer.noCriticalIssuesMsg] ↔
      (RiskScorer.hasType issue_counts "brute_force_detected" = false ∧
       RiskScorer.hasType issue_counts "exposed_endpoint" = false ∧
       RiskScorer.hasType issue_counts "missing_authentication" = false ∧
       RiskScorer.hasType issue_counts "suspicious_access_time" = false ∧
       RiskScorer.hasType issue_counts "default_credentials" = false ∧
       RiskScorer.hasType issue_counts "multiple_ip_access" = false) := by
  cases h1 : RiskScorer.hasType issue_counts "brute_force_detected" <;>
  cases h2 : RiskScorer.hasType issue_counts "exposed_endpoint" <;>
  cases h3 : RiskScorer.hasType issue_counts "missing_authentication" <;>
  cases h4 : RiskScorer.hasType issue_counts "suspicious_access_time" <;>
  cases h5 : RiskScorer.hasType issue_counts "default_credentials" <;>
  cases h6 : RiskScorer.hasType issue_counts "multiple_ip_access" <;>
    simp [RiskScorer.get_recommendations, h1, h2, h3, h4, h5, h6,
      RiskScorer.noCriticalIssuesMsg]

/-- Number of alerts in the list whose severity (INFO when absent) is s. -/
def countSev (alerts : List Alert) (s : String) : Nat :=
  (alerts.filter (fun a => a.severity.getD "INFO" == s)).length

/-- The summary loop adds, to each bucket of the accumulator, the number of
alerts whose severity names that bucket — including the total bucket. -/
theorem summary_fold (alerts : List Alert) (acc : AlertManager.AlertSummary) :
    (alerts.foldl (fun acc alert => AlertManager.bumpSummary acc (alert.severity.getD "INFO"))
        acc) =
      ⟨acc.CRITICAL + countSev alerts "CRITICAL", acc.WARNING + countSev alerts "WARNING",
       acc.INFO + countSev alerts "INFO", acc.total + countSev alerts "total"⟩ := by
  induction alerts generalizing acc with
  | nil => simp [countSev]
  | cons a rest ih =>
    have hcs : ∀ s : String, countSev (a :: rest) s =
        (if (a.severity.getD "INFO" == s) = true then 1 else 0) + countSev rest s := by
      intro s
      simp only [countSev, List.filter_cons]
      split_ifs <;> simp [Nat.add_comm]
    simp only [List.foldl_cons, ih, hcs]
    by_cases hC : a.severity.getD "INFO" = "CRITICAL"
    · simp [AlertManager.bumpSummary, hC, AlertManager.AlertSummary.mk.injEq]
      omega
    · by_cases hW : a.severity.getD "INFO" = "WARNING"
      · simp [AlertManager.bumpSummary, hW, AlertManager.AlertSummary.mk.injEq,
          beq_eq_false_iff_ne.mpr hC]
        omega
      · by_cases hI : a.severity.getD "INFO" = "INFO"
        · simp [AlertManager.bumpSummary, hI, AlertManager.AlertSummary.mk.injEq,
            beq_eq_false_iff_ne.mpr hC, beq_eq_false_iff_ne.mpr hW]
          omega
        · by_cases hT : a.severity.getD "INFO" = "total"
          · simp [AlertManager.bumpSummary, hT, AlertManager.AlertSummary.mk.injEq,
              beq_eq_false_iff_ne.mpr hC, beq_eq_false_iff_ne.mpr hW,
              beq_eq_false_iff_ne.mpr hI]
            omega
          · simp [AlertManager.bumpSummary, AlertManager.AlertSummary.mk.injEq,
              beq_eq_false_iff_ne.mpr hC, beq_eq_false_iff_ne.mpr hW,
              beq_eq_false_iff_ne.mpr hI, beq_eq_false_iff_ne.mpr hT]

/-- C10 (amended): get_alert_summary's total is the list length plus the
number of alerts whose severity is literally "total" (the `in summary`
membership test also matches that key); each of the CRITICAL, WARNING and
INFO buckets counts the alerts with exactly that severity, an absent
severity counting as INFO; alerts with any other severity are included in
the length but in none of the three buckets. -/
theorem alertSummary_c10_amended (alerts : List Alert) :
    (AlertManager.get_alert_summary alerts).total =
      alerts.length + countSev alerts "total" ∧
    (AlertManager.get_alert_summary alerts).CRITICAL = countSev alerts "CRITICAL" ∧
    (AlertManager.get_alert_summary alerts).WARNING = countSev alerts "WARNING" ∧
    (AlertManager.get_alert_summary alerts).INFO = countSev alerts "INFO" := by
  simp [AlertManager.get_alert_summary, summary_fold]

/-- C7: detect_missing_auth contributes exactly one CRITICAL
missing_authentication issue for a record whose endpoint contains one of
the protected substrings and whose token is absent or empty, and nothing
otherwise; the match is a substring match (so /api/dataexport is
protected), and a non-empty token is the only truthy token. -/
theorem missingAuth_c7 :
    (∀ (xs ys : List ApiLog) (r : ApiLog),
      APIDetector.detect_missing_auth (xs ++ r :: ys) =
        APIDetector.detect_missing_auth xs ++
          (if APIDetector.protected_endpoints.any (fun p => strHasSub r.endpoint p) &&
              !APIDetector.truthyToken r.auth_token then
            [APIDetector.mkMissingAuthIssue r]
          else []) ++
          APIDetector.detect_missing_auth ys) ∧
    APIDetector.protected_endpoints.any (fun p => strHasSub "/api/dataexport" p) = true ∧
    strHasSub "/api/dataexport" "/api/data" = true ∧
    APIDetector.truthyToken none = false ∧
    APIDetector.truthyToken (some "") = false ∧
    APIDetector.truthyToken (some "tok123") = true ∧
    (APIDetector.mkMissingAuthIssue ⟨"/api/dataexport", none, "ip", none⟩).severity =
      some "CRITICAL" := by
  refine ⟨fun xs ys r => ?_, by decide, by decide, by decide, by decide, by decide, by decide⟩
  simp only [APIDetector.detect_missing_auth, List.filterMap_append, List.filterMap_cons]
  by_cases h : (APIDetector.protected_endpoints.any (fun p => strHasSub r.endpoint p) &&
      !APIDetector.truthyToken r.auth_token) = true
  · simp [h]
  · rw [Bool.not_eq_true] at h
    simp [h]

/-- The result of `fromisoformat` applied to a record's timestamp after the
Z replacement, absent timestamp included; the detector skips a
login_success record exactly when this is none. -/
def parsedTimestamp (log : AuthLog) : Option PyDateTime :=
  match log.timestamp with
  | none => none
  | some ts => fromisoformat (replaceZ ts)

/-- A login_success record with an unparseable timestamp. -/
def badTsLog : AuthLog := ⟨"mallory", "login_success", "10.0.0.3", some "not-a-timestamp"⟩

/-- C9: detect_suspicious_access_time silently skips any login_success
record whose timestamp is absent or unparseable and continues with the
remaining records; a parseable login_success record yields exactly one
WARNING issue when its hour is in the suspicious set and none otherwise;
and a trailing Z is accepted as the UTC offset. -/
theorem suspiciousTime_c9 :
    (∀ (xs ys : List AuthLog) (r : AuthLog),
      r.action = "login_success" → parsedTimestamp r = none →
      AuthDetector.detect_suspicious_access_time (xs ++ r :: ys) =
        AuthDetector.detect_suspicious_access_time (xs ++ ys)) ∧
    (∀ (xs ys : List AuthLog) (r : AuthLog) (ts : String) (dt : PyDateTime),
      r.action = "login_success" → r.timestamp = some ts →
      fromisoformat (replaceZ ts) = some dt →
      DETECTION_CONFIG_suspicious_hours.contains dt.hour = true →
      AuthDetector.detect_suspicious_access_time (xs ++ r :: ys) =
        AuthDetector.detect_suspicious_access_time xs ++
          AuthDetector.mkSuspiciousTimeIssue r ts dt.hour ::
            AuthDetector.detect_suspicious_access_time ys) ∧
    (∀ (xs ys : List AuthLog) (r : AuthLog) (ts : String) (dt : PyDateTime),
      r.action = "login_success" → r.timestamp = some ts →
      fromisoformat (replaceZ ts) = some dt →
      DETECTION_CONFIG_suspicious_hours.contains dt.hour = false →
      AuthDetector.detect_suspicious_access_time (xs ++ r :: ys) =
        AuthDetector.detect_suspicious_access_time (xs ++ ys)) ∧
    fromisoformat (replaceZ "2024-01-15T02:30:00Z") =
      some ⟨2024, 1, 15, 2, 30, 0, 0, some 0⟩ ∧
    (AuthDetector.mkSuspiciousTimeIssue eveSuccessLog "2024-01-15T02:30:00Z" 2).severity =
      some "WARNING" := by
  refine ⟨fun xs ys r ha hp => ?_, fun xs ys r ts dt ha ht hf hh => ?_,
    fun xs ys r ts dt ha ht hf hh => ?_, by decide, by decide⟩
  · simp only [AuthDetector.detect_suspicious_access_time, List.filterMap_append,
      List.filterMap_cons, ha]
    cases ht : r.timestamp with
    | none => simp [ha, ht]
    | some ts =>
      have hf : fromisoformat (replaceZ ts) = none := by
        simpa [parsedTimestamp, ht] using hp
      simp [ha, ht, hf]
  · have hh2 : dt.hour ∈ DETECTION_CONFIG_suspicious_hours := by simpa using hh
    simp only [AuthDetector.detect_suspicious_access_time, List.filterMap_append,
      List.filterMap_cons]
    simp [ha, ht, hf, hh2]
  · have hh2 : dt.hour ∉ DETECTION_CONFIG_suspicious_hours := by simpa using hh
    simp only [AuthDetector.detect_suspicious_access_time, List.filterMap_append,
      List.filterMap_cons]
    simp [ha, ht, hf, hh2]

/-- Witness for C9: a concrete malformed-timestamp record is skipped while
detection continues, and the concrete hour-2 success record yields its
issue. -/
theorem suspiciousTime_c9_witness :
    (AuthDetector.detect_suspicious_access_time ([eveFailedLog] ++ badTsLog :: [eveSuccessLog]) =
      AuthDetector.detect_suspicious_access_time ([eveFailedLog] ++ [eveSuccessLog])) ∧
    (AuthDetector.detect_suspicious_access_time ([] ++ eveSuccessLog :: []) =
      AuthDetector.detect_suspicious_access_time [] ++
        AuthDetector.mkSuspiciousTimeIssue eveSuccessLog "2024-01-15T02:30:00Z" 2 ::
          AuthDetector.detect_suspicious_access_time []) :=
  ⟨suspiciousTime_c9.1 [eveFailedLog] [eveSuccessLog] badTsLog rfl (by decide),
   suspiciousTime_c9.2.1 [] [] eveSuccessLog "2024-01-15T02:30:00Z"
      ⟨2024, 1, 15, 2, 30, 0, 0, some 0⟩ rfl rfl (by decide) (by decide)⟩

/-- The default-credentials loop, filtered to the lowercase username w,
yields at most the issue of the first record whose lowered username is w,
and only when w is weak and not already detected. -/
theorem ddcGo_filter (auth_logs : List AuthLog) (detected : List String) (w : String) :
    ((MisconfigDetector.detectDefaultCredsGo detected auth_logs).filter
        (fun i => strLower (i.user.getD "") == w)) =
      (if MisconfigDetector.weak_usernames.contains w && !detected.contains w then
        match auth_logs.find? (fun l => strLower l.user == w) with
        | some l => [MisconfigDetector.mkDefaultCredIssue l]
        | none => []
      else []) := by
  induction auth_logs generalizing detected with
  | nil =>
    simp only [MisconfigDetector.detectDefaultCredsGo, List.filter_nil, List.find?_nil]
    cases h : (MisconfigDetector.weak_usernames.contains w && !detected.contains w) <;> simp
  | cons log rest ih =>
    simp only [MisconfigDetector.detectDefaultCredsGo, List.find?_cons]
    cases hm : (MisconfigDetector.weak_usernames.contains (strLower log.user) &&
        !detected.contains (strLower log.user)) with
    | true =>
      obtain ⟨hm1, hm2⟩ : strLower log.user ∈ MisconfigDetector.weak_usernames ∧
          strLower log.user ∉ detected := by simpa using hm
      cases hw : (strLower log.user == w) with
      | true =>
        have huw : strLower log.user = w := by simpa using hw
        subst huw
        simp [List.filter_cons, ih, hm1, hm2, MisconfigDetector.mkDefaultCredIssue]
      | false =>
        have huw : ¬strLower log.user = w := by simpa using hw
        have hw2 : (w == strLower log.user) = false := beq_eq_false_iff_ne.mpr (Ne.symm huw)
        simp [List.filter_cons, ih, hm1, hm2, hw, hw2, Ne.symm huw,
          MisconfigDetector.mkDefaultCredIssue]
    | false =>
      have hm0 : ¬(strLower log.user ∈ MisconfigDetector.weak_usernames ∧
          strLower log.user ∉ detected) := by
        intro hcon
        simp [hcon.1, hcon.2] at hm
      cases hw : (strLower log.user == w) with
      | true =>
        have huw : strLower log.user = w := by simpa using hw
        subst huw
        simp [ih, hm0]
      | false =>
        simp [ih, hw]

/-- A record using the username admin. -/
def adminLog : AuthLog := ⟨"admin", "login_failed", "1.2.3.4", none⟩

/-- C8: detect_default_credentials emits, for each lowercase weak username
w, exactly the issue built from the first record whose lowercased username
is w — so at most one WARNING issue per distinct weak username, the first
occurrence fixing the reported casing — and no issue for non-weak
usernames; in particular 5 records with user admin yield exactly 1 issue,
and mixed-case repeats of one weak name yield one issue with the first
casing. -/
theorem defaultCreds_c8 :
    (∀ (auth_logs : List AuthLog) (w : String),
      ((MisconfigDetector.detect_default_credentials auth_logs).filter
          (fun i => strLower (i.user.getD "") == w)) =
        (if MisconfigDetector.weak_usernames.contains w then
          match auth_logs.find? (fun l => strLower l.user == w) with
          | some l => [MisconfigDetector.mkDefaultCredIssue l]
          | none => []
        else [])) ∧
    (MisconfigDetector.detect_default_credentials (List.replicate 5 adminLog)).length = 1 ∧
    ((MisconfigDetector.detect_default_credentials
        [⟨"Admin", "login_success", "1.2.3.4", none⟩,
         ⟨"ADMIN", "login_success", "1.2.3.4", none⟩]).map (fun i => i.user)) =
      [some "Admin"] ∧
    ((MisconfigDetector.detect_default_credentials [adminLog]).map (fun i => i.severity)) =
      [some "WARNING"] ∧
    MisconfigDetector.detect_default_credentials
      [⟨"eve", "login_failed", "1.2.3.4", none⟩] = [] := by
  refine ⟨fun auth_logs w => ?_, by decide, by decide, by decide, by decide⟩
  rw [MisconfigDetector.detect_default_credentials, ddcGo_filter]
  simp

/-- The failed-login records of one user, in input order. -/
def failedLogsOf (auth_logs : List AuthLog) (user : String) : List AuthLog :=
  auth_logs.filter (fun l => l.action == "login_failed" && l.user == user)

/-- The list grouped under key u (empty when the key is absent). -/
def groupVal (gs : List (String × List AuthLog)) (u : String) : List AuthLog :=
  ((gs.find? (fun g => g.1 == u)).map (fun g => g.2)).getD []

theorem addToGroup_groupVal_same (gs : List (String × List AuthLog)) (u : String)
    (log : AuthLog) :
    groupVal (AuthDetector.addToGroup gs u log) u = groupVal gs u ++ [log] := by
  induction gs with
  | nil => simp [AuthDetector.addToGroup, groupVal, List.find?_cons]
  | cons p rest ih =>
    obtain ⟨v, ls⟩ := p
    by_cases h : v = u
    · subst h
      simp [AuthDetector.addToGroup, groupVal, List.find?_cons]
    · have hb : (v == u) = false := beq_eq_false_iff_ne.mpr h
      simp only [AuthDetector.addToGroup, hb, Bool.false_eq_true, if_false]
      simp only [groupVal, List.find?_cons, hb] at ih ⊢
      exact ih

theorem addToGroup_groupVal_ne (gs : List (String × List AuthLog)) (u : String)
    (log : AuthLog) (u' : String) (h : u' ≠ u) :
    groupVal (AuthDetector.addToGroup gs u log) u' = groupVal gs u' := by
  have hb : (u == u') = false := beq_eq_false_iff_ne.mpr (Ne.symm h)
  induction gs with
  | nil => simp [AuthDetector.addToGroup, groupVal, List.find?_cons, hb]
  | cons p rest ih =>
    obtain ⟨v, ls⟩ := p
    by_cases hv : v = u
    · subst hv
      simp [AuthDetector.addToGroup, groupVal, List.find?_cons, hb]
    · have hvb : (v == u) = false := beq_eq_false_iff_ne.mpr hv
      simp only [AuthDetector.addToGroup, hvb, Bool.false_eq_true, if_false]
      cases hvu : (v == u') with
      | true => simp [groupVal, List.find?_cons, hvu]
      | false =>
        simp only [groupVal, List.find?_cons, hvu] at ih ⊢
        exact ih

theorem addToGroup_keys (gs : List (String × List AuthLog)) (u : String) (log : AuthLog) :
    (AuthDetector.addToGroup gs u log).map (fun p => p.1) =
      (if gs.any (fun p => p.1 == u) then gs.map (fun p => p.1)
       else gs.map (fun p => p.1) ++ [u]) := by
  induction gs with
  | nil => simp [AuthDetector.addToGroup]
  | cons p rest ih =>
    obtain ⟨v, ls⟩ := p
    by_cases h : v = u
    · subst h
      simp [AuthDetector.addToGroup, List.any_cons]
    · have hb : (v == u) = false := beq_eq_false_iff_ne.mpr h
      simp only [AuthDetector.addToGroup, hb, Bool.false_eq_true, if_false, List.map_cons,
        List.any_cons, Bool.false_or, ih]
      cases hany : rest.any (fun p => p.1 == u) <;> simp

theorem addToGroup_keys_nodup (gs : List (String × List AuthLog)) (u : String)
    (log : AuthLog) (h : (gs.map (fun p => p.1)).Nodup) :
    ((AuthDetector.addToGroup gs u log).map (fun p => p.1)).Nodup := by
  rw [addToGroup_keys]
  cases hany : gs.any (fun p => p.1 == u) with
  | true => simpa using h
  | false =>
    have hu : u ∉ gs.map (fun p => p.1) := by
      intro hmem
      obtain ⟨p, hp, hpu⟩ := List.mem_map.mp hmem
      have : gs.any (fun p => p.1 == u) = true :=
        List.any_eq_true.mpr ⟨p, hp, by simp [hpu]⟩
      simp [this] at hany
    simp only [Bool.false_eq_true, if_false]
    exact List.Nodup.append h (List.nodup_singleton u)
      (by simpa [List.disjoint_singleton] using hu)

theorem addToGroup_vals_ne_nil (gs : List (String × List AuthLog)) (u : String)
    (log : AuthLog) (h : ∀ p ∈ gs, p.2 ≠ []) :
    ∀ p ∈ AuthDetector.addToGroup gs u log, p.2 ≠ [] := by
  induction gs with
  | nil =>
    intro p hp
    simp [AuthDetector.addToGroup] at hp
    subst hp
    simp
  | cons q rest ih =>
    obtain ⟨v, ls⟩ := q
    intro p hp
    by_cases hv : v = u
    · subst hv
      have hstep : AuthDetector.addToGroup ((v, ls) :: rest) v log = (v, ls ++ [log]) :: rest := by
        simp [AuthDetector.addToGroup]
      rw [hstep] at hp
      rcases List.mem_cons.mp hp with hh | ht
      · subst hh
        simp
      · exact h p (List.mem_cons_of_mem _ ht)
    · have hb : (v == u) = false := beq_eq_false_iff_ne.mpr hv
      simp only [AuthDetector.addToGroup, hb, Bool.false_eq_true, if_false] at hp
      rcases List.mem_cons.mp hp with hh | ht
      · subst hh
        exact h (v, ls) (List.mem_cons_self _ _)
      · exact ih (fun q hq => h q (List.mem_cons_of_mem _ hq)) p ht

theorem fold_groupVal (auth_logs : List AuthLog) (gs : List (String × List AuthLog))
    (u : String) :
    groupVal
        (auth_logs.foldl
          (fun gs log =>
            if log.action == "login_failed" then AuthDetector.addToGroup gs log.user log else gs)
          gs) u =
      groupVal gs u ++ failedLogsOf auth_logs u := by
  induction auth_logs generalizing gs with
  | nil => simp [failedLogsOf]
  | cons log rest ih =>
    have hfl : failedLogsOf (log :: rest) u =
        (if (log.action == "login_failed" && log.user == u) = true then
          log :: failedLogsOf rest u
        else failedLogsOf rest u) := by
      simp [failedLogsOf, List.filter_cons]
    cases ha : (log.action == "login_failed") with
    | false =>
      rw [List.foldl_cons, hfl, ha]
      simp only [Bool.false_and, Bool.false_eq_true, if_false]
      exact ih gs
    | true =>
      cases hu : (log.user == u) with
      | true =>
        have huu : log.user = u := by simpa using hu
        subst huu
        rw [List.foldl_cons, hfl, ha, hu]
        simp only [Bool.true_and, eq_self_iff_true, if_true]
        rw [ih (AuthDetector.addToGroup gs log.user log), addToGroup_groupVal_same]
        simp
      | false =>
        have huu : u ≠ log.user := fun hc => by simp [hc] at hu
        rw [List.foldl_cons, hfl, ha, hu]
        simp only [Bool.true_and, Bool.false_eq_true, if_false, eq_self_iff_true, if_true]
        rw [ih (AuthDetector.addToGroup gs log.user log),
          addToGroup_groupVal_ne _ _ _ _ huu]

theorem fold_keys_nodup (auth_logs : List AuthLog) (gs : List (String × List AuthLog))
    (h : (gs.map (fun p => p.1)).Nodup) :
    ((auth_logs.foldl
        (fun gs log =>
          if log.action == "login_failed" then AuthDetector.addToGroup gs log.user log else gs)
        gs).map (fun p => p.1)).Nodup := by
  induction auth_logs generalizing gs with
  | nil => exact h
  | cons log rest ih =>
    simp only [List.foldl_cons]
    cases ha : (log.action == "login_failed") with
    | false => simpa [ha] using ih gs h
    | true => simpa [ha] using ih _ (addToGroup_keys_nodup gs log.user log h)

theorem fold_vals_ne_nil (auth_logs : List AuthLog) (gs : List (String × List AuthLog))
    (h : ∀ p ∈ gs, p.2 ≠ []) :
    ∀ p ∈ auth_logs.foldl
        (fun gs log =>
          if log.action == "login_failed" then AuthDetector.addToGroup gs log.user log else gs)
        gs, p.2 ≠ [] := by
  induction auth_logs generalizing gs with
  | nil => exact h
  | cons log rest ih =>
    simp only [List.foldl_cons]
    cases ha : (log.action == "login_failed") with
    | false => simpa [ha] using ih gs h
    | true => simpa [ha] using ih _ (addToGroup_vals_ne_nil gs log.user log h)

theorem bf_filter_absent (G : List (String × List AuthLog)) (user : String)
    (h : user ∉ G.map (fun p => p.1)) :
    ((G.filterMap AuthDetector.bruteForceCheck).filter (fun i => i.user == some user)) = [] := by
  induction G with
  | nil => simp
  | cons p rest ih =>
    simp only [List.map_cons, List.mem_cons, not_or] at h
    obtain ⟨h1, h2⟩ := h
    have hb : ((AuthDetector.mkBruteForceIssue p.1 p.2).user == some user) = false := by
      have hne : some p.1 ≠ some user := by simpa using Ne.symm h1
      simpa [AuthDetector.mkBruteForceIssue] using beq_eq_false_iff_ne.mpr hne
    by_cases hlen : p.2.length > DETECTION_CONFIG_max_failed_logins
    · have hf : AuthDetector.bruteForceCheck p = some (AuthDetector.mkBruteForceIssue p.1 p.2) := by
        simp [AuthDetector.bruteForceCheck, hlen]
      rw [List.filterMap_cons_some hf, List.filter_cons_of_neg (by simp [hb])]
      exact ih h2
    · have hf : AuthDetector.bruteForceCheck p = none := by
        simp [AuthDetector.bruteForceCheck, hlen]
      rw [List.filterMap_cons_none hf]
      exact ih h2

theorem bf_groups_filter (G : List (String × List AuthLog)) (user : String)
    (hnd : (G.map (fun p => p.1)).Nodup) (hne : ∀ p ∈ G, p.2 ≠ []) :
    ((G.filterMap AuthDetector.bruteForceCheck).filter (fun i => i.user == some user)) =
      (if (groupVal G user).length > DETECTION_CONFIG_max_failed_logins then
        [AuthDetector.mkBruteForceIssue user (groupVal G user)]
      else []) := by
  induction G with
  | nil => simp [groupVal]
  | cons p rest ih =>
    simp only [List.map_cons, List.nodup_cons] at hnd
    obtain ⟨hkey, hnd2⟩ := hnd
    have hne2 : ∀ q ∈ rest, q.2 ≠ [] := fun q hq => hne q (List.mem_cons_of_mem _ hq)
    by_cases hpu : p.1 = user
    · subst hpu
      have hgv : groupVal ((p.1, p.2) :: rest) p.1 = p.2 := by
        simp [groupVal, List.find?_cons]
      have hgv2 : groupVal (p :: rest) p.1 = p.2 := by
        simpa using hgv
      have habsent := bf_filter_absent rest p.1 hkey
      rw [hgv2]
      by_cases hlen : p.2.length > DETECTION_CONFIG_max_failed_logins
      · have hf : AuthDetector.bruteForceCheck p = some (AuthDetector.mkBruteForceIssue p.1 p.2) := by
          simp [AuthDetector.bruteForceCheck, hlen]
        rw [List.filterMap_cons_some hf,
          List.filter_cons_of_pos (by simp [AuthDetector.mkBruteForceIssue]),
          habsent, if_pos hlen]
      · have hf : AuthDetector.bruteForceCheck p = none := by
          simp [AuthDetector.bruteForceCheck, hlen]
        rw [List.filterMap_cons_none hf, habsent, if_neg hlen]
    · have hb : (p.1 == user) = false := beq_eq_false_iff_ne.mpr hpu
      have hob : ((AuthDetector.mkBruteForceIssue p.1 p.2).user == some user) = false := by
        have hne : some p.1 ≠ some user := by simpa using hpu
        simpa [AuthDetector.mkBruteForceIssue] using beq_eq_false_iff_ne.mpr hne
      have hgv : groupVal (p :: rest) user = groupVal rest user := by
        have : groupVal ((p.1, p.2) :: rest) user = groupVal rest user := by
          simp [groupVal, List.find?_cons, hb]
        simpa using this
      rw [hgv]
      by_cases hlen : p.2.length > DETECTION_CONFIG_max_failed_logins
      · have hf : AuthDetector.bruteForceCheck p = some (AuthDetector.mkBruteForceIssue p.1 p.2) := by
          simp [AuthDetector.bruteForceCheck, hlen]
        rw [List.filterMap_cons_some hf, List.filter_cons_of_neg (by simp [hob])]
        exact ih hnd2 hne2
      · have hf : AuthDetector.bruteForceCheck p = none := by
          simp [AuthDetector.bruteForceCheck, hlen]
        rw [List.filterMap_cons_none hf]
        exact ih hnd2 hne2

/-- C6: detect_brute_force emits, for a given user, exactly one issue iff
that user's login_failed count strictly exceeds max_failed_logins (3), the
issue being CRITICAL and carrying failed_attempts equal to the count and
the deduplicated list of the attempts' IPs; in particular exactly 3 failed
attempts yield no issue and 4 yield exactly one with failed_attempts 4. -/
theorem bruteForce_c6 :
    (∀ (auth_logs : List AuthLog) (user : String),
      ((AuthDetector.detect_brute_force auth_logs).filter (fun i => i.user == some user)) =
        (if (failedLogsOf auth_logs user).length > DETECTION_CONFIG_max_failed_logins then
          [AuthDetector.mkBruteForceIssue user (failedLogsOf auth_logs user)]
        else [])) ∧
    AuthDetector.detect_brute_force (List.replicate 3 eveFailedLog) = [] ∧
    ((AuthDetector.detect_brute_force (List.replicate 4 eveFailedLog)).map
        (fun i => (i.user, i.failed_attempts, i.ips, i.severity))) =
      [(some "eve", some 4, some ["10.0.0.1"], some "CRITICAL")] := by
  refine ⟨fun auth_logs user => ?_, by decide, by decide⟩
  have hgv : groupVal (AuthDetector.failedAttemptsByUser auth_logs) user =
      failedLogsOf auth_logs user := by
    have := fold_groupVal auth_logs [] user
    simpa [AuthDetector.failedAttemptsByUser, groupVal] using this
  have := bf_groups_filter (AuthDetector.failedAttemptsByUser auth_logs) user
    (fold_keys_nodup auth_logs [] (by simp))
    (fold_vals_ne_nil auth_logs [] (by simp))
  rw [AuthDetector.detect_brute_force, this, hgv]

end BreachDetector
